import Mathlib

/-!
# Shallow embedding of the `timed_sell_order` Anchor program

Source: `src/contract.rs`.  The program has three instructions:
`create_sell_order`, `buy` and `cancel`, one persistent account type
(`SellOrder`) and one error enum (`SellError`).

Modelling conventions:
* Pubkeys are abstracted as natural-number identities.
* `u64` fields are naturals; where the source uses `checked_mul` the
  embedding checks the product against `2 ^ 64` explicitly.
* The ledger fragment the program touches is a `Chain` record holding the
  (at most one) order account for the fixed `(seller, token_account)` pair,
  the buyer's and seller's lamport balances, the two token-account balances,
  the delegated amount held by the derived order authority, and the storage
  deposit locked in the order account.
* Each instruction is a function `Chain → ... → Except Err Chain`.  The
  Solana runtime applies a transaction atomically: a failed instruction
  leaves every account untouched.  The embedding reflects this by returning
  the whole post-state only on success; `applyOp` gives the runtime-level
  semantics in which a failed call is a no-op on the ledger.
* Failures raised by the program's own `require!` / `checked_mul` lines are
  `Err.prog`; failures enforced by the host (Anchor account constraints,
  the SPL token program, and the runtime's lamport-conservation check that
  rejects the unchecked debit on line 74 when the buyer lacks funds) are
  `Err.host`.
-/

namespace TimedSellOrder

/-- The modulus of the `u64` type. -/
def U64MOD : Nat := 2 ^ 64

/-- The persisted order account (`struct SellOrder`, contract.rs 216-224). -/
structure SellOrder where
  seller : Nat
  token_mint : Nat
  token_account : Nat
  amount_remaining : Nat
  price_per_token : Nat
  deadline : Int
  bump : Nat
deriving DecidableEq

/-- `SellOrder::SIZE` (contract.rs 228). -/
def SellOrder.SIZE : Nat := 129

/-- Byte total of the persisted record layout spelled out in the code's own
comment on contract.rs 227: 8-byte account discriminator, three 32-byte
pubkeys, three 8-byte integers and the 1-byte bump. -/
def recordLayoutBytes : Nat := 8 + 32 * 3 + 8 * 3 + 1

/-- The space Anchor allocates for the `sell_order` account at creation:
`space = 8 + SellOrder::SIZE` (contract.rs 141). -/
def allocatedSpace : Nat := 8 + SellOrder.SIZE

/-- The program's error enum (`enum SellError`, contract.rs 235-246). -/
inductive SellError where
  | InvalidAmount
  | InvalidPrice
  | DeadlineInPast
  | OrderExpired
  | MathOverflow
deriving DecidableEq

/-- Failures enforced by the host rather than by the program body: Anchor's
`init` uniqueness, account/signer constraint checks, the runtime's
lamport-conservation check, and SPL-token-level transfer rejections. -/
inductive HostError where
  | AccountAlreadyInUse
  | AuthorizationMismatch
  | InsufficientFunds
  | InsufficientTokens
  | InsufficientDelegate
deriving DecidableEq

/-- Any failure a call can surface. -/
inductive Err where
  | prog (e : SellError)
  | host (e : HostError)
deriving DecidableEq

/-- The ledger fragment touched by the program (one order slot for the fixed
`(seller, token_account)` pair, plus the balances the instructions move). -/
structure Chain where
  order : Option SellOrder
  buyer_lamports : Nat
  seller_lamports : Nat
  seller_tokens : Nat
  buyer_tokens : Nat
  delegated : Nat
  order_rent : Nat
deriving DecidableEq

/-- The account context of `CreateSellOrder` (contract.rs 121-151): the
caller's identities, the PDA bump found by Anchor, and the rent deposit the
`init` constraint charges the seller for the new account. -/
structure Ctx where
  seller : Nat
  token_mint : Nat
  token_account : Nat
  bump : Nat
  rent : Nat
deriving DecidableEq

/-- `create_sell_order` (contract.rs 23-58).
Anchor's `init` fails if the order account already exists and charges the
seller the storage deposit; then the body checks `amount > 0`,
`price_per_token > 0`, `deadline > now`, persists the order fields from the
account context, and `token::approve` sets the derived authority's delegated
amount to exactly `amount`. -/
def create_sell_order (c : Chain) (ctx : Ctx) (now : Int)
    (amount price_per_token : Nat) (deadline : Int) : Except Err Chain :=
  match c.order with
  | some _ => .error (.host .AccountAlreadyInUse)
  | none =>
    if c.seller_lamports < ctx.rent then .error (.host .InsufficientFunds)
    else if amount = 0 then .error (.prog .InvalidAmount)
    else if price_per_token = 0 then .error (.prog .InvalidPrice)
    else if deadline ≤ now then .error (.prog .DeadlineInPast)
    else .ok { c with
      order := some {
        seller := ctx.seller
        token_mint := ctx.token_mint
        token_account := ctx.token_account
        amount_remaining := amount
        price_per_token := price_per_token
        deadline := deadline
        bump := ctx.bump }
      seller_lamports := c.seller_lamports - ctx.rent
      delegated := amount
      order_rent := ctx.rent }

/-- `buy` (contract.rs 62-99).
Checks, in source order: the order account exists and matches (host);
`now ≤ deadline` else `OrderExpired`; `0 < amount ≤ amount_remaining` else
`InvalidAmount`; `checked_mul` else `MathOverflow`; the lamport debit on
line 74 (rejected by the runtime's lamport-conservation check when the buyer
lacks `total_price`); the SPL delegated transfer (rejected when the source
balance or the delegated amount is below `amount`).  On success it moves
`total_price` lamports buyer → seller, `amount` tokens seller → buyer
(consuming `amount` of the delegation), and decrements `amount_remaining`. -/
def buy (c : Chain) (now : Int) (amount : Nat) : Except Err Chain :=
  match c.order with
  | none => .error (.host .AuthorizationMismatch)
  | some order =>
    if order.deadline < now then .error (.prog .OrderExpired)
    else if ¬ (0 < amount ∧ amount ≤ order.amount_remaining) then
      .error (.prog .InvalidAmount)
    else
      let total_price := amount * order.price_per_token
      if U64MOD ≤ total_price then .error (.prog .MathOverflow)
      else if c.buyer_lamports < total_price then .error (.host .InsufficientFunds)
      else if c.seller_tokens < amount then .error (.host .InsufficientTokens)
      else if c.delegated < amount then .error (.host .InsufficientDelegate)
      else .ok { c with
        order := some { order with
          amount_remaining := order.amount_remaining - amount }
        buyer_lamports := c.buyer_lamports - total_price
        seller_lamports := c.seller_lamports + total_price
        seller_tokens := c.seller_tokens - amount
        buyer_tokens := c.buyer_tokens + amount
        delegated := c.delegated - amount }

/-- `cancel` (contract.rs 103-114 with accounts struct 192-210).
The host checks `has_one = seller` and the seller's signature; the body
revokes the delegation (`token::revoke` zeroes the delegated amount) and the
`close = seller` constraint deletes the order account, returning its storage
deposit to the seller.  Token balances are untouched. -/
def cancel (c : Chain) (caller : Nat) (signed : Bool) : Except Err Chain :=
  match c.order with
  | none => .error (.host .AuthorizationMismatch)
  | some order =>
    if caller = order.seller ∧ signed = true then
      .ok { c with
        order := none
        delegated := 0
        seller_lamports := c.seller_lamports + c.order_rent
        order_rent := 0 }
    else .error (.host .AuthorizationMismatch)

/-- Operations that can hit an existing order after its creation. -/
inductive Op where
  | buyOp (now : Int) (amount : Nat)
  | cancelOp (caller : Nat) (signed : Bool)

/-- Runtime-level semantics of one call: a failed transaction leaves the
ledger unchanged. -/
def applyOp (c : Chain) : Op → Chain
  | .buyOp now amount =>
    match buy c now amount with
    | .ok c2 => c2
    | .error _ => c
  | .cancelOp caller signed =>
    match cancel c caller signed with
    | .ok c2 => c2
    | .error _ => c

/-- A sequence of calls applied in order. -/
def applyOps (c : Chain) : List Op → Chain
  | [] => c
  | op :: rest => applyOps (applyOp c op) rest

/-! Concrete ledgers used by the sanity checks and witnesses below; the
numbers follow the spec's scenarios A-E (amount 1000, unit price 5,
deadline T+3600 with T = 0, a purchase of 400 at T+10). -/

/-- Scenario A order record. -/
def demoOrder : SellOrder :=
  { seller := 1, token_mint := 2, token_account := 3, amount_remaining := 1000,
    price_per_token := 5, deadline := 3600, bump := 7 }

/-- Ledger before creation. -/
def demoStart : Chain :=
  { order := none, buyer_lamports := 10000, seller_lamports := 2,
    seller_tokens := 1000, buyer_tokens := 0, delegated := 0, order_rent := 0 }

/-- Creation context for scenario A. -/
def demoCtx : Ctx :=
  { seller := 1, token_mint := 2, token_account := 3, bump := 7, rent := 2 }

/-- Ledger right after scenario A's creation. -/
def demoChain : Chain :=
  { order := some demoOrder, buyer_lamports := 10000, seller_lamports := 0,
    seller_tokens := 1000, buyer_tokens := 0, delegated := 1000, order_rent := 2 }

/-- Ledger after scenario B's purchase of 400 at unit price 5. -/
def demoBought : Chain :=
  { order := some { demoOrder with amount_remaining := 600 },
    buyer_lamports := 8000, seller_lamports := 2000, seller_tokens := 600,
    buyer_tokens := 400, delegated := 600, order_rent := 2 }

/-- An exhausted order (`amount_remaining = 0`) still on the books. -/
def demoExhausted : Chain :=
  { order := some { demoOrder with amount_remaining := 0 },
    buyer_lamports := 5000, seller_lamports := 5000, seller_tokens := 0,
    buyer_tokens := 1000, delegated := 0, order_rent := 2 }

/-- A ledger whose buyer cannot pay for a single token. -/
def demoPoor : Chain :=
  { order := some demoOrder, buyer_lamports := 3, seller_lamports := 0,
    seller_tokens := 1000, buyer_tokens := 0, delegated := 1000, order_rent := 2 }

/-- Scenario F order: unit price `u64::MAX`. -/
def demoMaxPriceOrder : SellOrder :=
  { seller := 1, token_mint := 2, token_account := 3, amount_remaining := 1000,
    price_per_token := 2 ^ 64 - 1, deadline := 3600, bump := 7 }

/-- Scenario F ledger. -/
def demoMaxPrice : Chain :=
  { order := some demoMaxPriceOrder, buyer_lamports := 10000,
    seller_lamports := 0, seller_tokens := 1000, buyer_tokens := 0,
    delegated := 1000, order_rent := 2 }

-- Sanity checks on concrete inputs (spec scenarios A-F).
example : (create_sell_order demoStart demoCtx 0 1000 5 3600).map Chain.order =
    .ok (some demoOrder) := rfl
example : buy demoChain 10 400 = .ok demoBought := rfl
example : buy demoBought 11 700 = .error (.prog .InvalidAmount) := rfl
example : buy demoBought 3601 100 = .error (.prog .OrderExpired) := rfl
example : buy demoMaxPrice 10 2 = .error (.prog .MathOverflow) := rfl
example : ∃ c2, cancel demoBought 1 true = .ok c2 ∧ c2.order = none :=
  ⟨_, rfl, rfl⟩

/-! ## Helper lemmas -/

/-- Everything a successful `buy` implies: every guard passed and the
post-state is the record written on contract.rs 74-97. -/
theorem buy_ok_elim {c c2 : Chain} {now : Int} {amount : Nat} {o : SellOrder}
    (horder : c.order = some o) (h : buy c now amount = .ok c2) :
    now ≤ o.deadline ∧ 0 < amount ∧ amount ≤ o.amount_remaining ∧
    amount * o.price_per_token < U64MOD ∧
    amount * o.price_per_token ≤ c.buyer_lamports ∧
    amount ≤ c.seller_tokens ∧ amount ≤ c.delegated ∧
    c2 = { c with
      order := some { o with amount_remaining := o.amount_remaining - amount }
      buyer_lamports := c.buyer_lamports - amount * o.price_per_token
      seller_lamports := c.seller_lamports + amount * o.price_per_token
      seller_tokens := c.seller_tokens - amount
      buyer_tokens := c.buyer_tokens + amount
      delegated := c.delegated - amount } := by
  unfold buy at h
  rw [horder] at h
  dsimp only at h
  split at h
  · exact absurd h (by simp)
  next hdl =>
  split at h
  · exact absurd h (by simp)
  next hamt =>
  split at h
  · exact absurd h (by simp)
  next hmul =>
  split at h
  · exact absurd h (by simp)
  next hfunds =>
  split at h
  · exact absurd h (by simp)
  next htok =>
  split at h
  · exact absurd h (by simp)
  next hdel =>
  rw [not_not] at hamt
  refine ⟨le_of_not_lt hdl, hamt.1, hamt.2, lt_of_not_le hmul,
    le_of_not_lt hfunds, le_of_not_lt htok, le_of_not_lt hdel, ?_⟩
  exact (Except.ok.injEq _ _).mp h.symm

/-- A failed `buy` is a no-op on the ledger. -/
theorem applyOp_buy_of_error {c : Chain} {now : Int} {amount : Nat} {e : Err}
    (h : buy c now amount = .error e) :
    applyOp c (.buyOp now amount) = c := by
  unfold applyOp
  dsimp only
  rw [h]

/-- Everything a successful `cancel` implies: the order existed, the caller
is the recorded seller and signed, and the post-state deletes the record,
returns the deposit and zeroes the delegation (contract.rs 103-114 with the
`close = seller` constraint on 196-204). -/
theorem cancel_ok_elim {c c2 : Chain} {caller : Nat} {signed : Bool}
    (h : cancel c caller signed = .ok c2) :
    ∃ o, c.order = some o ∧ caller = o.seller ∧ signed = true ∧
      c2 = { c with
        order := none
        delegated := 0
        seller_lamports := c.seller_lamports + c.order_rent
        order_rent := 0 } := by
  unfold cancel at h
  cases horder : c.order with
  | none => rw [horder] at h; exact absurd h (by simp)
  | some o =>
    rw [horder] at h
    dsimp only at h
    split at h
    next hcond =>
      exact ⟨o, rfl, hcond.1, hcond.2, ((Except.ok.injEq _ _).mp h).symm⟩
    · exact absurd h (by simp)

/-- One call never increases `amount_remaining` of a surviving order, and a
`cancel` call never alters a surviving order at all. -/
theorem applyOp_order_le (c : Chain) (op : Op) (o2 : SellOrder)
    (h : (applyOp c op).order = some o2) :
    ∃ o, c.order = some o ∧ o2.amount_remaining ≤ o.amount_remaining ∧
      (∀ caller signed, op = .cancelOp caller signed → o2 = o) := by
  cases op with
  | buyOp now amount =>
    unfold applyOp at h
    dsimp only at h
    cases hb : buy c now amount with
    | error e =>
      rw [hb] at h
      exact ⟨o2, h, le_refl _, fun _ _ hop => by cases hop⟩
    | ok c2 =>
      rw [hb] at h
      cases horder : c.order with
      | none =>
        rw [show buy c now amount = .error (.host .AuthorizationMismatch) from
          by unfold buy; rw [horder]] at hb
        exact absurd hb (by simp)
      | some o =>
        obtain ⟨-, -, -, -, -, -, -, hc2⟩ := buy_ok_elim horder hb
        subst hc2
        dsimp only at h
        rw [Option.some.injEq] at h
        subst h
        exact ⟨o, rfl, Nat.sub_le _ _, fun _ _ hop => by cases hop⟩
  | cancelOp caller signed =>
    unfold applyOp at h
    dsimp only at h
    cases hc : cancel c caller signed with
    | error e =>
      rw [hc] at h
      exact ⟨o2, h, le_refl _, fun _ _ _ => rfl⟩
    | ok c2 =>
      rw [hc] at h
      obtain ⟨o, -, -, -, hc2⟩ := cancel_ok_elim hc
      subst hc2
      exact absurd h (by simp)

/-- Over any sequence of calls, a surviving order's `amount_remaining` never
exceeds what it was at the start of the sequence. -/
theorem applyOps_order_le (c : Chain) (ops : List Op) (o2 : SellOrder)
    (h : (applyOps c ops).order = some o2) :
    ∃ o, c.order = some o ∧ o2.amount_remaining ≤ o.amount_remaining := by
  induction ops generalizing c with
  | nil => exact ⟨o2, h, le_refl _⟩
  | cons op rest ih =>
    rw [show applyOps c (op :: rest) = applyOps (applyOp c op) rest from rfl] at h
    obtain ⟨om, hom, hle⟩ := ih (applyOp c op) h
    obtain ⟨o, ho, hle2, -⟩ := applyOp_order_le c op om hom
    exact ⟨o, ho, le_trans hle hle2⟩

/-- Everything a successful `create_sell_order` implies: the slot was free,
the seller could pay the deposit, every `require!` on contract.rs 30-32
passed, and the post-state is the record written on 35-55. -/
theorem create_ok_elim {c c2 : Chain} {ctx : Ctx} {now : Int}
    {amount price : Nat} {deadline : Int}
    (h : create_sell_order c ctx now amount price deadline = .ok c2) :
    c.order = none ∧ ctx.rent ≤ c.seller_lamports ∧ 0 < amount ∧ 0 < price ∧
    now < deadline ∧
    c2 = { c with
      order := some {
        seller := ctx.seller
        token_mint := ctx.token_mint
        token_account := ctx.token_account
        amount_remaining := amount
        price_per_token := price
        deadline := deadline
        bump := ctx.bump }
      seller_lamports := c.seller_lamports - ctx.rent
      delegated := amount
      order_rent := ctx.rent } := by
  unfold create_sell_order at h
  cases horder : c.order with
  | some o => rw [horder] at h; exact absurd h (by simp)
  | none =>
    rw [horder] at h
    dsimp only at h
    split at h
    · exact absurd h (by simp)
    next hrent =>
    split at h
    · exact absurd h (by simp)
    next hamt =>
    split at h
    · exact absurd h (by simp)
    next hprice =>
    split at h
    · exact absurd h (by simp)
    next hdl =>
    exact ⟨rfl, le_of_not_lt hrent, Nat.pos_of_ne_zero hamt,
      Nat.pos_of_ne_zero hprice, lt_of_not_le hdl,
      ((Except.ok.injEq _ _).mp h).symm⟩

/-- A seller's `cancel` (signed, matching recorded seller) always succeeds
and yields the closed ledger. -/
theorem cancel_by_seller (c : Chain) (o : SellOrder) (horder : c.order = some o) :
    cancel c o.seller true = .ok { c with
      order := none
      delegated := 0
      seller_lamports := c.seller_lamports + c.order_rent
      order_rent := 0 } := by
  unfold cancel
  rw [horder]
  dsimp only
  rw [if_pos ⟨rfl, rfl⟩]

/-! ## Claim theorems -/

/-- C1: for every successful Purchase (`buy`) of quantity `amount` against an
order with unit price `price_per_token`, the buyer's lamport balance decreases
by exactly `amount * price_per_token`, the seller's increases by exactly that
product, exactly `amount` tokens move from the seller's token account to the
buyer's, and the order's `amount_remaining` decreases by exactly `amount`. -/
theorem buy_success_moves_exact (c c2 : Chain) (now : Int) (amount : Nat)
    (o : SellOrder) (horder : c.order = some o)
    (h : buy c now amount = .ok c2) :
    c2.buyer_lamports + amount * o.price_per_token = c.buyer_lamports ∧
    c2.seller_lamports = c.seller_lamports + amount * o.price_per_token ∧
    c2.seller_tokens + amount = c.seller_tokens ∧
    c2.buyer_tokens = c.buyer_tokens + amount ∧
    ∃ o2, c2.order = some o2 ∧
      o2.amount_remaining + amount = o.amount_remaining := by
  obtain ⟨-, -, hle, -, hfunds, htok, -, hc2⟩ := buy_ok_elim horder h
  subst hc2
  exact ⟨Nat.sub_add_cancel hfunds, rfl, Nat.sub_add_cancel htok, rfl,
    ⟨_, rfl, Nat.sub_add_cancel hle⟩⟩

/-- Witness for C1: scenario B, a purchase of 400 at unit price 5. -/
theorem buy_success_moves_exact_witness :
    demoChain.order = some demoOrder ∧ buy demoChain 10 400 = .ok demoBought ∧
    (demoBought.buyer_lamports + 400 * demoOrder.price_per_token =
        demoChain.buyer_lamports ∧
      demoBought.seller_lamports =
        demoChain.seller_lamports + 400 * demoOrder.price_per_token ∧
      demoBought.seller_tokens + 400 = demoChain.seller_tokens ∧
      demoBought.buyer_tokens = demoChain.buyer_tokens + 400 ∧
      ∃ o2, demoBought.order = some o2 ∧
        o2.amount_remaining + 400 = demoOrder.amount_remaining) :=
  ⟨rfl, rfl, buy_success_moves_exact demoChain demoBought 10 400 demoOrder rfl rfl⟩

/-- C2: every failing `buy` — in particular one whose buyer holds fewer
lamports than `total_price = amount * price_per_token`, which the runtime's
lamport-conservation check rejects — surfaces an error and has no partial
effect: the whole ledger (order, lamport balances, token balances) is left
exactly as it was. -/
theorem buy_failure_atomic (c : Chain) (now : Int) (amount : Nat)
    (o : SellOrder) (horder : c.order = some o) :
    (∀ e, buy c now amount = .error e → applyOp c (.buyOp now amount) = c) ∧
    (now ≤ o.deadline → 0 < amount → amount ≤ o.amount_remaining →
      amount * o.price_per_token < U64MOD →
      c.buyer_lamports < amount * o.price_per_token →
      buy c now amount = .error (.host .InsufficientFunds)) := by
  refine ⟨fun e h => applyOp_buy_of_error h, ?_⟩
  intro hdl hpos hle hmul hfunds
  unfold buy
  rw [horder]
  dsimp only
  rw [if_neg (not_lt.mpr hdl), if_neg (not_not_intro ⟨hpos, hle⟩),
    if_neg (not_le.mpr hmul), if_pos hfunds]

/-- Witness for C2: a buyer with 3 lamports cannot buy one token at price 5;
the call errors and the ledger is unchanged. -/
theorem buy_failure_atomic_witness :
    demoPoor.order = some demoOrder ∧
    buy demoPoor 10 1 = .error (.host .InsufficientFunds) ∧
    applyOp demoPoor (.buyOp 10 1) = demoPoor :=
  ⟨rfl,
    (buy_failure_atomic demoPoor 10 1 demoOrder rfl).2 (by decide) (by decide)
      (by decide) (by decide) (by decide),
    (buy_failure_atomic demoPoor 10 1 demoOrder rfl).1 _
      ((buy_failure_atomic demoPoor 10 1 demoOrder rfl).2 (by decide)
        (by decide) (by decide) (by decide) (by decide))⟩

/-- C3: `buy` fails with `OrderExpired` exactly when `now` is strictly past
the deadline (a purchase exactly at the deadline passes the check, which runs
before every other one), a non-expired call whose amount is zero or exceeds
`amount_remaining` fails with `InvalidAmount`, and every such failure leaves
the ledger unchanged. -/
theorem buy_expired_or_invalid_amount (c : Chain) (now : Int) (amount : Nat)
    (o : SellOrder) (horder : c.order = some o) :
    (buy c now amount = .error (.prog .OrderExpired) ↔ o.deadline < now) ∧
    (now ≤ o.deadline → (amount = 0 ∨ o.amount_remaining < amount) →
      buy c now amount = .error (.prog .InvalidAmount)) ∧
    (∀ e, buy c now amount = .error e → applyOp c (.buyOp now amount) = c) := by
  refine ⟨⟨?_, ?_⟩, ?_, fun e h => applyOp_buy_of_error h⟩
  · intro h
    by_contra hnot
    rw [not_lt] at hnot
    unfold buy at h
    rw [horder] at h
    dsimp only at h
    rw [if_neg (not_lt.mpr hnot)] at h
    split at h
    · simp at h
    split at h
    · simp at h
    split at h
    · simp at h
    split at h
    · simp at h
    split at h
    · simp at h
    simp at h
  · intro hdl
    unfold buy
    rw [horder]
    dsimp only
    rw [if_pos hdl]
  · intro hdl hbad
    have hcond : ¬ (0 < amount ∧ amount ≤ o.amount_remaining) := by omega
    unfold buy
    rw [horder]
    dsimp only
    rw [if_neg (not_lt.mpr hdl), if_pos hcond]

/-- Witness for C3: scenarios C and D — buying 700 of the 600 remaining
fails `InvalidAmount`, buying at T+3601 past deadline T+3600 fails
`OrderExpired`, and both calls leave the ledger unchanged. -/
theorem buy_expired_or_invalid_amount_witness :
    demoBought.order = some { demoOrder with amount_remaining := 600 } ∧
    buy demoBought 3601 100 = .error (.prog .OrderExpired) ∧
    buy demoBought 11 700 = .error (.prog .InvalidAmount) ∧
    applyOp demoBought (.buyOp 11 700) = demoBought :=
  ⟨rfl,
    (buy_expired_or_invalid_amount demoBought 3601 100
      { demoOrder with amount_remaining := 600 } rfl).1.mpr (by decide),
    (buy_expired_or_invalid_amount demoBought 11 700
      { demoOrder with amount_remaining := 600 } rfl).2.1 (by decide)
      (by decide),
    (buy_expired_or_invalid_amount demoBought 11 700
      { demoOrder with amount_remaining := 600 } rfl).2.2 _
      ((buy_expired_or_invalid_amount demoBought 11 700
        { demoOrder with amount_remaining := 600 } rfl).2.1 (by decide)
        (by decide))⟩

/-- C4: `create_sell_order` rejects `amount = 0` with `InvalidAmount`, a zero
unit price with `InvalidPrice` (checked second), and `deadline ≤ now` with
`DeadlineInPast` (checked third); every call passing these checks persists an
order whose `amount_remaining` is the supplied amount, whose price and
deadline are the supplied values, and whose seller, mint and token account
are the caller's identities from the account context. -/
theorem create_checks_and_persists (c : Chain) (ctx : Ctx) (now : Int)
    (amount price : Nat) (deadline : Int)
    (hfree : c.order = none) (hrent : ctx.rent ≤ c.seller_lamports) :
    (amount = 0 → create_sell_order c ctx now amount price deadline =
      .error (.prog .InvalidAmount)) ∧
    (0 < amount → price = 0 →
      create_sell_order c ctx now amount price deadline =
        .error (.prog .InvalidPrice)) ∧
    (0 < amount → 0 < price → deadline ≤ now →
      create_sell_order c ctx now amount price deadline =
        .error (.prog .DeadlineInPast)) ∧
    (∀ c2, create_sell_order c ctx now amount price deadline = .ok c2 →
      c2.order = some {
        seller := ctx.seller
        token_mint := ctx.token_mint
        token_account := ctx.token_account
        amount_remaining := amount
        price_per_token := price
        deadline := deadline
        bump := ctx.bump }) := by
  have hbase : ∀ r, create_sell_order c ctx now amount price deadline = r ↔
      (if amount = 0 then .error (.prog .InvalidAmount)
       else if price = 0 then .error (.prog .InvalidPrice)
       else if deadline ≤ now then .error (.prog .DeadlineInPast)
       else .ok { c with
        order := some {
          seller := ctx.seller
          token_mint := ctx.token_mint
          token_account := ctx.token_account
          amount_remaining := amount
          price_per_token := price
          deadline := deadline
          bump := ctx.bump }
        seller_lamports := c.seller_lamports - ctx.rent
        delegated := amount
        order_rent := ctx.rent } : Except Err Chain) = r := by
    intro r
    unfold create_sell_order
    rw [hfree]
    dsimp only
    rw [if_neg (not_lt.mpr hrent)]
  refine ⟨?_, ?_, ?_, ?_⟩
  · intro h0
    rw [hbase, if_pos h0]
  · intro hpos h0
    rw [hbase, if_neg (Nat.pos_iff_ne_zero.mp hpos), if_pos h0]
  · intro hpos hppos hdl
    rw [hbase, if_neg (Nat.pos_iff_ne_zero.mp hpos),
      if_neg (Nat.pos_iff_ne_zero.mp hppos), if_pos hdl]
  · intro c2 h
    obtain ⟨-, -, -, -, -, hc2⟩ := create_ok_elim h
    subst hc2
    rfl

/-- Witness for C4: scenario A creation persists the expected record, and
the three rejection branches fire on zero amount, zero price and a past
deadline. -/
theorem create_checks_and_persists_witness :
    demoStart.order = none ∧ demoCtx.rent ≤ demoStart.seller_lamports ∧
    create_sell_order demoStart demoCtx 0 0 5 3600 =
      .error (.prog .InvalidAmount) ∧
    create_sell_order demoStart demoCtx 0 1000 0 3600 =
      .error (.prog .InvalidPrice) ∧
    create_sell_order demoStart demoCtx 0 1000 5 0 =
      .error (.prog .DeadlineInPast) ∧
    (create_sell_order demoStart demoCtx 0 1000 5 3600 = .ok demoChain →
      demoChain.order = some demoOrder) :=
  ⟨rfl, by decide,
    (create_checks_and_persists demoStart demoCtx 0 0 5 3600 rfl
      (by decide)).1 rfl,
    (create_checks_and_persists demoStart demoCtx 0 1000 0 3600 rfl
      (by decide)).2.1 (by decide) rfl,
    (create_checks_and_persists demoStart demoCtx 0 1000 5 0 rfl
      (by decide)).2.2.1 (by decide) (by decide) (by decide),
    fun h => (create_checks_and_persists demoStart demoCtx 0 1000 5 3600 rfl
      (by decide)).2.2.2 demoChain h⟩

/-- C5: `total_price` is the exact product `amount * price_per_token` over
`u64`: when the product does not fit in 64 bits the call fails with
`MathOverflow` and the ledger is unchanged, and a successful call moves
exactly the untruncated product of lamports. -/
theorem buy_total_price_exact (c : Chain) (now : Int) (amount : Nat)
    (o : SellOrder) (horder : c.order = some o)
    (hdl : now ≤ o.deadline) (hpos : 0 < amount)
    (hle : amount ≤ o.amount_remaining) :
    (U64MOD ≤ amount * o.price_per_token →
      buy c now amount = .error (.prog .MathOverflow) ∧
      applyOp c (.buyOp now amount) = c) ∧
    (∀ c2, buy c now amount = .ok c2 →
      amount * o.price_per_token < U64MOD ∧
      c2.buyer_lamports + amount * o.price_per_token = c.buyer_lamports ∧
      c2.seller_lamports = c.seller_lamports + amount * o.price_per_token) := by
  constructor
  · intro hover
    have herr : buy c now amount = .error (.prog .MathOverflow) := by
      unfold buy
      rw [horder]
      dsimp only
      rw [if_neg (not_lt.mpr hdl), if_neg (not_not_intro ⟨hpos, hle⟩),
        if_pos hover]
    exact ⟨herr, applyOp_buy_of_error herr⟩
  · intro c2 h
    obtain ⟨-, -, -, hmul, hfunds, -, -, hc2⟩ := buy_ok_elim horder h
    subst hc2
    exact ⟨hmul, Nat.sub_add_cancel hfunds, rfl⟩

/-- Witness for C5: scenario F — a purchase of 2 at unit price
`u64::MAX = 2 ^ 64 - 1` overflows the 64-bit product, fails `MathOverflow`,
and leaves the ledger unchanged. -/
theorem buy_total_price_exact_witness :
    demoMaxPrice.order = some demoMaxPriceOrder ∧
    (10 : Int) ≤ demoMaxPriceOrder.deadline ∧ 0 < 2 ∧
    2 ≤ demoMaxPriceOrder.amount_remaining ∧
    U64MOD ≤ 2 * demoMaxPriceOrder.price_per_token ∧
    buy demoMaxPrice 10 2 = .error (.prog .MathOverflow) ∧
    applyOp demoMaxPrice (.buyOp 10 2) = demoMaxPrice :=
  ⟨rfl, by decide, by decide, by decide, by decide,
    ((buy_total_price_exact demoMaxPrice 10 2 demoMaxPriceOrder rfl (by decide)
      (by decide) (by decide)).1 (by decide)).1,
    ((buy_total_price_exact demoMaxPrice 10 2 demoMaxPriceOrder rfl (by decide)
      (by decide) (by decide)).1 (by decide)).2⟩

/-- C6: from creation on, a surviving order's `amount_remaining` never
exceeds the amount delegated at creation (it is a natural number, so `0 ≤`
holds by type), each call leaves it non-increasing, and `cancel` calls never
alter a surviving order at all — `buy` is the only mutator. -/
theorem order_remaining_invariant (c0 c1 : Chain) (ctx : Ctx) (now : Int)
    (amount price : Nat) (deadline : Int)
    (hcreate : create_sell_order c0 ctx now amount price deadline = .ok c1) :
    (∀ ops o2, (applyOps c1 ops).order = some o2 →
      o2.amount_remaining ≤ amount) ∧
    (∀ ops op o2 o3, (applyOps c1 ops).order = some o2 →
      (applyOp (applyOps c1 ops) op).order = some o3 →
      o3.amount_remaining ≤ o2.amount_remaining) ∧
    (∀ ops caller signed o2 o3, (applyOps c1 ops).order = some o2 →
      (applyOp (applyOps c1 ops) (.cancelOp caller signed)).order = some o3 →
      o3 = o2) := by
  obtain ⟨-, -, -, -, -, hc1⟩ := create_ok_elim hcreate
  subst hc1
  refine ⟨?_, ?_, ?_⟩
  · intro ops o2 h
    obtain ⟨o, ho, hle⟩ := applyOps_order_le _ ops o2 h
    dsimp only at ho
    rw [Option.some.injEq] at ho
    rw [← ho] at hle
    exact hle
  · intro ops op o2 o3 h2 h3
    obtain ⟨o, ho, hle, -⟩ := applyOp_order_le _ op o3 h3
    rw [h2, Option.some.injEq] at ho
    rw [← ho] at hle
    exact hle
  · intro ops caller signed o2 o3 h2 h3
    obtain ⟨o, ho, -, heq⟩ := applyOp_order_le _ (.cancelOp caller signed) o3 h3
    rw [h2, Option.some.injEq] at ho
    rw [← ho] at heq
    exact heq caller signed rfl

/-- Witness for C6: scenario A's creation followed by arbitrary call
sequences keeps the remaining amount within the 1000 delegated at creation. -/
theorem order_remaining_invariant_witness :
    create_sell_order demoStart demoCtx 0 1000 5 3600 = .ok demoChain ∧
    ((∀ ops o2, (applyOps demoChain ops).order = some o2 →
        o2.amount_remaining ≤ 1000) ∧
      (∀ ops op o2 o3, (applyOps demoChain ops).order = some o2 →
        (applyOp (applyOps demoChain ops) op).order = some o3 →
        o3.amount_remaining ≤ o2.amount_remaining) ∧
      (∀ ops caller signed o2 o3, (applyOps demoChain ops).order = some o2 →
        (applyOp (applyOps demoChain ops) (.cancelOp caller signed)).order =
          some o3 →
        o3 = o2)) :=
  ⟨rfl, order_remaining_invariant demoStart demoChain demoCtx 0 1000 5 3600 rfl⟩

/-- C7: a signed `cancel` by the recorded seller always succeeds — no
precondition on `amount_remaining` or on the deadline — and afterwards the
order record is gone, its storage deposit is back with the seller, the
delegated capability is fully revoked, and the cancellation moved no tokens. -/
theorem cancel_unconditional (c : Chain) (o : SellOrder)
    (horder : c.order = some o) :
    ∃ c2, cancel c o.seller true = .ok c2 ∧ c2.order = none ∧
      c2.delegated = 0 ∧
      c2.seller_lamports = c.seller_lamports + c.order_rent ∧
      c2.seller_tokens = c.seller_tokens ∧
      c2.buyer_tokens = c.buyer_tokens :=
  ⟨_, cancel_by_seller c o horder, rfl, rfl, rfl, rfl, rfl⟩

/-- Witness for C7: scenario E — cancelling the partially-filled order after
the deadline succeeds, deletes the record, returns the 2-lamport deposit,
revokes the delegation and touches no token balance. -/
theorem cancel_unconditional_witness :
    demoBought.order = some { demoOrder with amount_remaining := 600 } ∧
    ∃ c2, cancel demoBought
        ({ demoOrder with amount_remaining := 600 } : SellOrder).seller true =
        .ok c2 ∧
      c2.order = none ∧ c2.delegated = 0 ∧
      c2.seller_lamports = demoBought.seller_lamports + demoBought.order_rent ∧
      c2.seller_tokens = demoBought.seller_tokens ∧
      c2.buyer_tokens = demoBought.buyer_tokens :=
  ⟨rfl, cancel_unconditional demoBought
    { demoOrder with amount_remaining := 600 } rfl⟩

/-- C8: the persisted record layout named in the code's own comment totals
129 bytes (8-byte tag, three 32-byte identities, three 8-byte integers,
1-byte salt) and `SellOrder.SIZE` equals it, but the creation allocation is
`8 + SellOrder.SIZE = 137` bytes — the 8-byte tag is counted twice, so the
allocated space does not equal the 129-byte record total. -/
theorem allocated_space_double_counts_tag :
    recordLayoutBytes = 129 ∧ SellOrder.SIZE = recordLayoutBytes ∧
    allocatedSpace = 137 ∧ allocatedSpace ≠ recordLayoutBytes := by decide

/-- C9: once `amount_remaining` is 0, every `buy` fails (amount 0 by the
positivity check, any positive amount by the remainder bound or, past the
deadline, by expiry) and is a no-op, the record is still on the books
unchanged, and a signed seller `cancel` still succeeds and is what removes
the record. -/
theorem exhausted_order_stays_open (c : Chain) (o : SellOrder)
    (horder : c.order = some o) (hzero : o.amount_remaining = 0) :
    (∀ now amount, ∃ e, buy c now amount = .error e) ∧
    (∀ now amount, applyOp c (.buyOp now amount) = c) ∧
    (∀ now amount, (applyOp c (.buyOp now amount)).order = some o) ∧
    (∃ c2, cancel c o.seller true = .ok c2 ∧ c2.order = none) := by
  have hbuy : ∀ now amount, ∃ e, buy c now amount = .error e := by
    intro now amount
    unfold buy
    rw [horder]
    dsimp only
    by_cases hdl : o.deadline < now
    · exact ⟨.prog .OrderExpired, by rw [if_pos hdl]⟩
    · refine ⟨.prog .InvalidAmount, ?_⟩
      rw [if_neg hdl,
        if_pos (show ¬ (0 < amount ∧ amount ≤ o.amount_remaining) by omega)]
  have hnoop : ∀ now amount, applyOp c (.buyOp now amount) = c := by
    intro now amount
    obtain ⟨e, he⟩ := hbuy now amount
    exact applyOp_buy_of_error he
  refine ⟨hbuy, hnoop, fun now amount => ?_, ?_⟩
  · rw [hnoop now amount]
    exact horder
  · exact ⟨_, cancel_by_seller c o horder, rfl⟩

/-- Witness for C9: the exhausted scenario ledger — a buy of 100 at T+10
fails and changes nothing, the record survives, and the seller's cancel
deletes it. -/
theorem exhausted_order_stays_open_witness :
    demoExhausted.order = some { demoOrder with amount_remaining := 0 } ∧
    ({ demoOrder with amount_remaining := 0 } : SellOrder).amount_remaining
      = 0 ∧
    (∃ e, buy demoExhausted 10 100 = .error e) ∧
    applyOp demoExhausted (.buyOp 10 100) = demoExhausted ∧
    (∃ c2, cancel demoExhausted
      ({ demoOrder with amount_remaining := 0 } : SellOrder).seller true =
        .ok c2 ∧ c2.order = none) :=
  ⟨rfl, rfl,
    (exhausted_order_stays_open demoExhausted
      { demoOrder with amount_remaining := 0 } rfl rfl).1 10 100,
    (exhausted_order_stays_open demoExhausted
      { demoOrder with amount_remaining := 0 } rfl rfl).2.1 10 100,
    (exhausted_order_stays_open demoExhausted
      { demoOrder with amount_remaining := 0 } rfl rfl).2.2.2⟩

/-- C10: the unchecked decrement `order.amount_remaining -= amount` on
contract.rs 97 can never underflow: any successful `buy` has already
validated `0 < amount ≤ amount_remaining` on line 67 before any effect, so
the `u64` subtraction agrees with the integer subtraction and its result is
non-negative. -/
theorem buy_decrement_no_underflow (c c2 : Chain) (now : Int) (amount : Nat)
    (o o2 : SellOrder) (horder : c.order = some o)
    (h : buy c now amount = .ok c2) (h2 : c2.order = some o2) :
    0 < amount ∧ amount ≤ o.amount_remaining ∧
    o2.amount_remaining + amount = o.amount_remaining ∧
    (o2.amount_remaining : Int) =
      (o.amount_remaining : Int) - (amount : Int) ∧
    0 ≤ (o.amount_remaining : Int) - (amount : Int) := by
  obtain ⟨-, hpos, hle, -, -, -, -, hc2⟩ := buy_ok_elim horder h
  subst hc2
  dsimp only at h2
  rw [Option.some.injEq] at h2
  rw [← h2]
  dsimp only
  refine ⟨hpos, hle, Nat.sub_add_cancel hle, ?_, ?_⟩ <;> omega

/-- Witness for C10: scenario B's purchase of 400 from 1000 remaining
decrements to 600 with no borrow. -/
theorem buy_decrement_no_underflow_witness :
    demoChain.order = some demoOrder ∧
    buy demoChain 10 400 = .ok demoBought ∧
    demoBought.order = some { demoOrder with amount_remaining := 600 } ∧
    (0 < 400 ∧ 400 ≤ demoOrder.amount_remaining ∧
      ({ demoOrder with amount_remaining := 600 } :
        SellOrder).amount_remaining + 400 = demoOrder.amount_remaining ∧
      (({ demoOrder with amount_remaining := 600 } :
        SellOrder).amount_remaining : Int) =
        (demoOrder.amount_remaining : Int) - (400 : Int) ∧
      0 ≤ (demoOrder.amount_remaining : Int) - (400 : Int)) :=
  ⟨rfl, rfl, rfl, buy_decrement_no_underflow demoChain demoBought 10 400
    demoOrder { demoOrder with amount_remaining := 600 } rfl rfl rfl⟩

end TimedSellOrder
